import Mathlib

set_option maxRecDepth 100000

/-!
Verification of the chat endpoint in `src/app/api/chat/route.ts`.

The endpoint wires together: query extraction from the last UI message,
an embedding call, a retrieval call to the RAG search API
(`queryRAGSystem`), prompt assembly (`buildSystemPrompt`,
`buildNoAnswerPrompt`, `buildContextFromSources`), a content-based URL
classifier (`convertToRealFIFAUrl`), and a streamed completion call.

External effects (JSON parsing, the embedding service, the HTTP fetch,
the completion stream) are modelled as explicit outcome parameters; the
pure string-building and branching logic is translated directly from the
source.  JavaScript string truthiness (`''` is falsy) is modelled by
`jsOr`, `String.prototype.toLowerCase` by `lowerStr`,
`String.prototype.includes` by `strIncludes`, `String.prototype.trim`
by `jsTrim`, and `Array.prototype.join` by `joinSep`.
-/

/-- Lowercase a string character-by-character (models `toLowerCase()`). -/
def lowerStr (s : String) : String := ⟨s.data.map Char.toLower⟩

/-- Substring test on character lists (models `String.prototype.includes`). -/
def listContainsSub (pat : List Char) : List Char → Bool
  | [] => pat.isEmpty
  | c :: rest => pat.isPrefixOf (c :: rest) || listContainsSub pat rest

/-- Models `s.includes(pat)` from JavaScript. -/
def strIncludes (s pat : String) : Bool := listContainsSub pat.data s.data

/-- Models `s.trim()` from JavaScript: drop whitespace at both ends. -/
def jsTrim (s : String) : String :=
  ⟨((s.data.dropWhile Char.isWhitespace).reverse.dropWhile Char.isWhitespace).reverse⟩

/-- Models the JavaScript expression `a || b` where `a` is a possibly
absent string: `null`, `undefined` and the empty string are falsy. -/
def jsOr (primary : Option String) (fallback : String) : String :=
  match primary with
  | none => fallback
  | some s => if s.data.isEmpty then fallback else s

/-- Models `Array.prototype.join(sep)`. -/
def joinSep (sep : String) : List String → String
  | [] => ""
  | [s] => s
  | s :: rest => s ++ sep ++ joinSep sep rest

/-- Models the prefix test `s.startsWith(pre)` on character lists. -/
def strStartsWith (s pre : String) : Bool := pre.data.isPrefixOf s.data

/-- The `RAGDocument` interface from `route.ts`. -/
structure RAGDocument where
  url : String
  title : String
  content : String
  fetched_at : String
  score : Option Int
deriving DecidableEq

/-- The `RAGResponse` interface from `route.ts`. -/
structure RAGResponse where
  documents : List RAGDocument
  has_results : Bool
  query_id : Option String
deriving DecidableEq

/-- One element of `ragResults.results` as read by `queryRAGSystem`: the
code accesses `result.id`, `result.text`, `result.metadata?.text` and
`result.score`.  The numeric score is abstracted to `Int` (it is only
carried through, never inspected). -/
structure RawResult where
  id : String
  text : Option String
  metadataText : Option String
  score : Option Int
deriving DecidableEq

/-- Outcome of the `fetch` call to the RAG search API.
`networkError` models a rejected fetch (or a thrown error anywhere in the
`try`); `httpResponse ok body` models a completed HTTP response, where
`ok` is `response.ok`, the outer `Option` models whether
`response.json()` succeeds, and the inner `Option` models presence of the
`results` field (the code writes `ragResults.results?.map(...) || []`). -/
inductive FetchOutcome where
  | networkError : FetchOutcome
  | httpResponse : Bool → Option (Option (List RawResult)) → FetchOutcome
deriving DecidableEq

/-- Outcome of the `embed` call in the handler. -/
inductive EmbedOutcome where
  | failure : EmbedOutcome
  | success : List Int → EmbedOutcome
deriving DecidableEq

/-- One segment of `lastUserMessage.parts`. -/
structure MessagePart where
  type : String
  text : String
deriving DecidableEq

/-- A `UIMessage` as far as the handler reads it: its optional `parts`. -/
structure UIMessage where
  parts : Option (List MessagePart)
deriving DecidableEq

/-- The parsed request body: either malformed (JSON parse failure or a
missing `messages` field, both of which throw before any model call) or a
message list. -/
inductive ReqBody where
  | malformed : ReqBody
  | ok : List UIMessage → ReqBody

/-- External calls the handler can make, recorded as a trace. -/
inductive Call where
  | embedCall : Call
  | fetchCall : Call
  | modelCall : Call
deriving DecidableEq

/-- The handler's response: a fixed error response, or a streamed
completion identified by the model name and the optional system prompt. -/
inductive ChatOutcome where
  | errorResponse : Nat → String → ChatOutcome
  | streamed : String → Option String → ChatOutcome
deriving DecidableEq

/-- URL for Estadio Azteca from the `urlMappings` table. -/
def urlAzteca : String :=
  "https://fifa.com/en/tournaments/mens/worldcup/canadamexicousa2026/stadiums/mexico-city"

/-- URL for Estadio Akron from the `urlMappings` table. -/
def urlAkron : String :=
  "https://fifa.com/en/tournaments/mens/worldcup/canadamexicousa2026/stadiums/guadalajara"

/-- URL for Estadio BBVA from the `urlMappings` table. -/
def urlBBVA : String :=
  "https://fifa.com/en/tournaments/mens/worldcup/canadamexicousa2026/stadiums/monterrey"

/-- URL for SoFi Stadium from the `urlMappings` table. -/
def urlSofi : String :=
  "https://fifa.com/en/tournaments/mens/worldcup/canadamexicousa2026/stadiums/los-angeles"

/-- URL for Lumen Field from the `urlMappings` table. -/
def urlLumen : String :=
  "https://fifa.com/en/tournaments/mens/worldcup/canadamexicousa2026/stadiums/seattle"

/-- URL for group-stage pages from the `urlMappings` table (both the
`grupo-d` and `phase-groups` keys map to it). -/
def urlGroups : String :=
  "https://fifa.com/en/tournaments/mens/worldcup/canadamexicousa2026/groups"

/-- URL for ticket pages from the `urlMappings` table. -/
def urlTickets : String :=
  "https://fifa.com/en/tournaments/mens/worldcup/canadamexicousa2026/tickets"

/-- Generic stadiums URL returned by the `stadium`/`estadio`/`capacity`
catch-all branch. -/
def urlStadiums : String :=
  "https://fifa.com/en/tournaments/mens/worldcup/canadamexicousa2026/stadiums"

/-- Top-level tournament URL, the classifier's final default. -/
def urlMain : String :=
  "https://fifa.com/en/tournaments/mens/worldcup/canadamexicousa2026"

/-- Direct translation of `convertToRealFIFAUrl(docId, content)`: the
content is lowercased and matched against keyword rules in source order,
first match wins, with the top-level tournament page as default. -/
def convertToRealFIFAUrl (docId : String) (content : String) : String :=
  let contentLower := lowerStr content
  if strIncludes contentLower "estadio azteca" || strIncludes contentLower "87,523" ||
     strIncludes contentLower "mexico city" then urlAzteca
  else if strIncludes contentLower "estadio akron" || strIncludes contentLower "49,813" ||
     strIncludes contentLower "guadalajara" then urlAkron
  else if strIncludes contentLower "estadio bbva" || strIncludes contentLower "53,500" ||
     strIncludes contentLower "monterrey" then urlBBVA
  else if strIncludes contentLower "sofi stadium" || strIncludes contentLower "los ángeles" ||
     strIncludes contentLower "los angeles" then urlSofi
  else if strIncludes contentLower "lumen field" || strIncludes contentLower "seattle" then urlLumen
  else if strIncludes contentLower "grupo d" || strIncludes contentLower "group d" then urlGroups
  else if strIncludes contentLower "fase de grupos" || strIncludes contentLower "group stage" then
    urlGroups
  else if strIncludes contentLower "ticket" || strIncludes contentLower "precio" ||
     strIncludes contentLower "price" || strIncludes contentLower "usd" then urlTickets
  else if strIncludes contentLower "stadium" || strIncludes contentLower "estadio" ||
     strIncludes contentLower "capacity" || strIncludes contentLower "capacidad" then urlStadiums
  else urlMain

/-- The fixed no-answer prompt returned by `buildNoAnswerPrompt()`. -/
def buildNoAnswerPrompt : String :=
  "You must respond with exactly this message:\n\n\"I don't know based on current fifa.com content I have indexed.\"\n\nThen suggest the user visit fifa.com directly for the most current information about FIFA events and tickets."

/-- The numbered source block built for one document inside
`buildContextFromSources` (the template literal
`[Source N] title / Content: ... / URL: ... / Last indexed: ...`),
split as the index prefix followed by the field body. -/
def docBlockBody (doc : RAGDocument) : String :=
  doc.title ++ "\nContent: " ++ doc.content ++ "\nURL: " ++ doc.url ++
    "\nLast indexed: " ++ doc.fetched_at

/-- One mapped element of `documents.map((doc, index) => ...)` in
`buildContextFromSources`. -/
def docBlock (p : Nat × RAGDocument) : String :=
  "[Source " ++ toString (p.1 + 1) ++ "] " ++ docBlockBody p.2

/-- Direct translation of `buildContextFromSources(documents)`. -/
def buildContextFromSources (documents : List RAGDocument) : String :=
  joinSep "\n\n---\n\n" (documents.enum.map docBlock)

/-- The fixed part of the augmented system prompt before the interpolated
`${context}` in `buildSystemPrompt`. -/
def fifaPromptHeader : String :=
  "You are a FIFA.com assistant chatbot. Your role is to help visitors find accurate information about FIFA events, tickets, and official content.\n\nSTRICT GUIDELINES:\n- Answer ONLY based on the retrieved FIFA.com content provided below\n- Always include citations and sources for your answers\n- If the context doesn't fully answer the question, acknowledge this and provide what information you can\n- Focus on ticket sales, World Cup information, FIFA events, and official policies\n- Maintain a helpful, professional tone\n- Provide specific details when available (dates, prices, procedures)\n- Never hallucinate or provide information not found in the retrieved context\n\nDOMAIN RESTRICTION:\n- Only reference content from fifa.com/en and its subpages\n- Do not provide information from other sources or your training data\n\nRETRIEVED CONTEXT FROM FIFA.COM:\n"

/-- The fixed part of the augmented system prompt after the interpolated
`${context}`, ending with the interpolated `${userQuery}` in quotes. -/
def fifaPromptTail (userQuery : String) : String :=
  "\n\nBased on this FIFA.com content, please answer the user's question: \"" ++ userQuery ++ "\""

/-- Direct translation of `buildSystemPrompt(ragResponse, userQuery)`:
the guard `!ragResponse || !ragResponse.has_results ||
!ragResponse.documents?.length` selects the no-answer prompt, otherwise
the strict-citation template around `buildContextFromSources`. -/
def buildSystemPrompt (ragResponse : Option RAGResponse) (userQuery : String) : String :=
  match ragResponse with
  | none => buildNoAnswerPrompt
  | some resp =>
    if !resp.has_results || resp.documents.isEmpty then buildNoAnswerPrompt
    else fifaPromptHeader ++ buildContextFromSources resp.documents ++ fifaPromptTail userQuery

/-- The `ragResults.results?.map((result, index) => ...)` transformation
in `queryRAGSystem`: each raw result becomes a `RAGDocument` with a
classified URL, the synthetic title `FIFA Document ${index + 1}`, the
content fallback chain `result.text || result.metadata?.text ||
'No content available'`, and `fetched_at` set to `new Date()` at request
handling time (modelled by the `now` parameter — the raw result carries
no timestamp). -/
def mkDocuments (now : String) (results : List RawResult) : List RAGDocument :=
  results.enum.map fun p =>
    { url := convertToRealFIFAUrl p.2.id (jsOr p.2.text "")
      title := "FIFA Document " ++ toString (p.1 + 1)
      content := jsOr p.2.text (jsOr p.2.metadataText "No content available")
      fetched_at := now
      score := p.2.score }

/-- Direct translation of `queryRAGSystem(embedding, query)`: any fetch
rejection, non-ok status (which throws `RAG API error`) or JSON failure
is caught and returns `null`; otherwise the raw results (defaulting to
`[]` if the `results` field is absent) are transformed into documents and
`has_results` is set to `documents.length > 0`. -/
def queryRAGSystem (embedding : List Int) (query : String) (now : String)
    (fetch : FetchOutcome) : Option RAGResponse :=
  match fetch with
  | .networkError => none
  | .httpResponse false _ => none
  | .httpResponse true none => none
  | .httpResponse true (some maybeResults) =>
    let documents := mkDocuments now (maybeResults.getD [])
    some { documents := documents
           has_results := decide (documents.length > 0)
           query_id := none }

/-- Query extraction from the handler: take the last message, keep its
text-typed parts, and join their texts with a space. -/
def extractQuery (messages : List UIMessage) : String :=
  match messages.getLast? with
  | none => ""
  | some lastUserMessage =>
    match lastUserMessage.parts with
    | none => ""
    | some parts =>
      joinSep " " ((parts.filter fun part => part.type == "text").map fun part => part.text)

/-- The `POST` handler: malformed bodies throw before any model call and
return the fixed 500 response; an empty trimmed query skips embedding and
retrieval and streams an unaugmented `gpt-5` completion; an embedding
failure is caught and falls through to the same unaugmented completion;
otherwise retrieval runs and an `openai/gpt-4o-mini` completion is
streamed with the assembled system prompt.  The second component records
which external calls were made. -/
def POST (body : ReqBody) (embedRes : EmbedOutcome) (fetch : FetchOutcome)
    (now : String) : ChatOutcome × List Call :=
  match body with
  | .malformed => (.errorResponse 500 "Internal Server Error", [])
  | .ok messages =>
    let userQuery := extractQuery messages
    if (jsTrim userQuery).data.isEmpty then
      (.streamed "gpt-5" none, [.modelCall])
    else
      match embedRes with
      | .failure => (.streamed "gpt-5" none, [.embedCall, .modelCall])
      | .success queryEmbedding =>
        let ragResponse := queryRAGSystem queryEmbedding userQuery now fetch
        let systemPrompt := buildSystemPrompt ragResponse userQuery
        (.streamed "openai/gpt-4o-mini" (some systemPrompt),
         [.embedCall, .fetchCall, .modelCall])

/-- Spec-side presentation of the classifier: an ordered list of
(predicate, url) rules over the lowercased content, to be compared with
the nested conditionals of `convertToRealFIFAUrl`. -/
def classifierRules : List ((String → Bool) × String) :=
  [(fun c => strIncludes c "estadio azteca" || strIncludes c "87,523" ||
      strIncludes c "mexico city", urlAzteca),
   (fun c => strIncludes c "estadio akron" || strIncludes c "49,813" ||
      strIncludes c "guadalajara", urlAkron),
   (fun c => strIncludes c "estadio bbva" || strIncludes c "53,500" ||
      strIncludes c "monterrey", urlBBVA),
   (fun c => strIncludes c "sofi stadium" || strIncludes c "los ángeles" ||
      strIncludes c "los angeles", urlSofi),
   (fun c => strIncludes c "lumen field" || strIncludes c "seattle", urlLumen),
   (fun c => strIncludes c "grupo d" || strIncludes c "group d", urlGroups),
   (fun c => strIncludes c "fase de grupos" || strIncludes c "group stage", urlGroups),
   (fun c => strIncludes c "ticket" || strIncludes c "precio" ||
      strIncludes c "price" || strIncludes c "usd", urlTickets),
   (fun c => strIncludes c "stadium" || strIncludes c "estadio" ||
      strIncludes c "capacity" || strIncludes c "capacidad", urlStadiums)]

/-- First-matching-rule evaluation of a rule table, defaulting to the
top-level tournament page. -/
def firstMatch : List ((String → Bool) × String) → String → String
  | [], _ => urlMain
  | rule :: rest, c => if rule.1 c then rule.2 else firstMatch rest c

/-- Disjunction of the five venue-specific rule conditions (venue names
and their known numeric capacity identifiers). -/
def venueKeywordHit (c : String) : Bool :=
  strIncludes c "estadio azteca" || strIncludes c "87,523" || strIncludes c "mexico city" ||
  strIncludes c "estadio akron" || strIncludes c "49,813" || strIncludes c "guadalajara" ||
  strIncludes c "estadio bbva" || strIncludes c "53,500" || strIncludes c "monterrey" ||
  strIncludes c "sofi stadium" || strIncludes c "los ángeles" || strIncludes c "los angeles" ||
  strIncludes c "lumen field" || strIncludes c "seattle"

/-- The five venue-specific URLs. -/
def venueUrls : List String := [urlAzteca, urlAkron, urlBBVA, urlSofi, urlLumen]

/-- Every URL the classifier can return. -/
def fifaUrlWhitelist : List String :=
  [urlAzteca, urlAkron, urlBBVA, urlSofi, urlLumen, urlGroups, urlTickets, urlStadiums, urlMain]

/-- The common tournament-section prefix of all classifier URLs. -/
def tournamentRoot : String :=
  "https://fifa.com/en/tournaments/mens/worldcup/canadamexicousa2026"

/-- The guard of `buildSystemPrompt`: no response, `has_results` unset,
or an empty document list. -/
def noContextCase (ragResponse : Option RAGResponse) : Bool :=
  match ragResponse with
  | none => true
  | some resp => !resp.has_results || resp.documents.isEmpty

/-- C1: whenever the retrieval result is null, or has `has_results`
false, or has an empty document list, `buildSystemPrompt` returns the one
fixed no-answer prompt — a constant independent of the query and of any
document content — and that constant contains the exact required sentence
between its fixed surroundings. -/
theorem claim_C1 : ∀ (ragResponse : Option RAGResponse) (userQuery : String),
    (ragResponse = none ∨
      ∃ resp, ragResponse = some resp ∧ (resp.has_results = false ∨ resp.documents = [])) →
    buildSystemPrompt ragResponse userQuery = buildNoAnswerPrompt ∧
    buildNoAnswerPrompt =
      "You must respond with exactly this message:\n\n\"" ++
      "I don't know based on current fifa.com content I have indexed." ++
      "\"\n\nThen suggest the user visit fifa.com directly for the most current information about FIFA events and tickets." := by
  intro ragResponse userQuery h
  refine ⟨?_, by decide⟩
  rcases h with rfl | ⟨resp, rfl, hcase⟩
  · rfl
  · rcases hcase with hfalse | hnil
    · simp [buildSystemPrompt, hfalse]
    · simp [buildSystemPrompt, hnil]

/-- Witness for C1 at a concrete empty retrieval result and query. -/
theorem claim_C1_witness :
    buildSystemPrompt (some { documents := [], has_results := false, query_id := none })
        "When do tickets go on sale?" = buildNoAnswerPrompt :=
  (claim_C1 (some { documents := [], has_results := false, query_id := none })
    "When do tickets go on sale?" (Or.inr ⟨_, rfl, Or.inl rfl⟩)).1

/-- C8: a malformed body (JSON parse failure or missing `messages`
field) yields the fixed 500 plain-text response, and the call trace is
empty — in particular no model call is made. -/
theorem claim_C8 : ∀ (embedRes : EmbedOutcome) (fetch : FetchOutcome) (now : String),
    POST .malformed embedRes fetch now = (.errorResponse 500 "Internal Server Error", []) ∧
    (POST .malformed embedRes fetch now).2.contains Call.modelCall = false := by
  intro embedRes fetch now
  exact ⟨rfl, rfl⟩

/-- C2 counterexample: with a non-empty query, a successful embedding and
a failing Content Fetcher call, the handler does NOT fall back to an
unaugmented completion — it streams a completion that carries the
no-answer system prompt.  This refutes the claim that every embedding or
fetch failure leads to a completion call with no system prompt. -/
theorem claim_C2_counterexample :
    (POST (.ok [{ parts := some [{ type := "text", text := "What are ticket prices?" }] }])
        (.success []) .networkError "2026-01-01T00:00:00Z").1 =
      ChatOutcome.streamed "openai/gpt-4o-mini" (some buildNoAnswerPrompt) ∧
    (POST (.ok [{ parts := some [{ type := "text", text := "What are ticket prices?" }] }])
        (.success []) .networkError "2026-01-01T00:00:00Z").1 ≠
      ChatOutcome.streamed "gpt-5" none ∧
    some buildNoAnswerPrompt ≠ (none : Option String) := by
  refine ⟨rfl, by decide, by decide⟩

/-- C2 (amended): with a non-empty trimmed query, an embedding failure is
caught and the handler falls back to an unaugmented completion (no system
prompt), while a Content Fetcher failure is caught inside
`queryRAGSystem`, converted to a null result, and the request still
completes with a streamed completion — carrying the no-answer system
prompt rather than no prompt.  Neither failure aborts the request. -/
theorem claim_C2 : ∀ (messages : List UIMessage) (emb : List Int)
    (fetch : FetchOutcome) (now : String),
    (jsTrim (extractQuery messages)).data.isEmpty = false →
    POST (.ok messages) .failure fetch now =
      (.streamed "gpt-5" none, [.embedCall, .modelCall]) ∧
    POST (.ok messages) (.success emb) .networkError now =
      (.streamed "openai/gpt-4o-mini" (some buildNoAnswerPrompt),
       [.embedCall, .fetchCall, .modelCall]) := by
  intro messages emb fetch now h
  constructor
  · simp [POST, h]
  · simp [POST, h, queryRAGSystem, buildSystemPrompt]

/-- Witness for C2 at a concrete non-empty query. -/
theorem claim_C2_witness :
    POST (.ok [{ parts := some [{ type := "text", text := "ticket info" }] }]) .failure
        .networkError "T" = (.streamed "gpt-5" none, [.embedCall, .modelCall]) ∧
    POST (.ok [{ parts := some [{ type := "text", text := "ticket info" }] }]) (.success [1])
        .networkError "T" =
      (.streamed "openai/gpt-4o-mini" (some buildNoAnswerPrompt),
       [.embedCall, .fetchCall, .modelCall]) :=
  claim_C2 [{ parts := some [{ type := "text", text := "ticket info" }] }] [1]
    .networkError "T" (by decide)

/-- C3: a Content Fetcher failure — network error or non-success HTTP
status — makes `queryRAGSystem` return null, which `buildSystemPrompt`
turns into the no-answer prompt (exactly as it does for an empty result
set), and the request still completes with a streamed model response
rather than an error response. -/
theorem claim_C3 : ∀ (messages : List UIMessage) (emb : List Int) (now q : String)
    (fetch : FetchOutcome) (body : Option (Option (List RawResult))),
    (fetch = .networkError ∨ fetch = .httpResponse false body) →
    (jsTrim (extractQuery messages)).data.isEmpty = false →
    queryRAGSystem emb q now fetch = none ∧
    buildSystemPrompt (queryRAGSystem emb q now fetch) q = buildNoAnswerPrompt ∧
    buildSystemPrompt (some { documents := [], has_results := false, query_id := none }) q =
      buildNoAnswerPrompt ∧
    POST (.ok messages) (.success emb) fetch now =
      (.streamed "openai/gpt-4o-mini" (some buildNoAnswerPrompt),
       [.embedCall, .fetchCall, .modelCall]) := by
  intro messages emb now q fetch body hf h
  rcases hf with rfl | rfl <;>
    exact ⟨rfl, rfl, rfl, by simp [POST, h, queryRAGSystem, buildSystemPrompt]⟩

/-- Witness for C3 at a concrete non-success HTTP response. -/
theorem claim_C3_witness :
    queryRAGSystem [1] "When is the final?" "T" (.httpResponse false (some none)) = none ∧
    buildSystemPrompt
        (queryRAGSystem [1] "When is the final?" "T" (.httpResponse false (some none)))
        "When is the final?" = buildNoAnswerPrompt ∧
    buildSystemPrompt (some { documents := [], has_results := false, query_id := none })
        "When is the final?" = buildNoAnswerPrompt ∧
    POST (.ok [{ parts := some [{ type := "text", text := "When is the final?" }] }])
        (.success [1]) (.httpResponse false (some none)) "T" =
      (.streamed "openai/gpt-4o-mini" (some buildNoAnswerPrompt),
       [.embedCall, .fetchCall, .modelCall]) :=
  claim_C3 [{ parts := some [{ type := "text", text := "When is the final?" }] }] [1] "T"
    "When is the final?" (.httpResponse false (some none)) (some none) (Or.inr rfl) (by decide)

/-- C6: an empty or whitespace-only extracted query (including a last
message with no text parts) makes the handler skip retrieval entirely:
the call trace contains no embedding call and no fetch call, and the
response is an unaugmented `gpt-5` completion with no system prompt. -/
theorem claim_C6 : ∀ (messages : List UIMessage) (embedRes : EmbedOutcome)
    (fetch : FetchOutcome) (now : String),
    (jsTrim (extractQuery messages)).data.isEmpty = true →
    POST (.ok messages) embedRes fetch now = (.streamed "gpt-5" none, [Call.modelCall]) ∧
    (POST (.ok messages) embedRes fetch now).2.contains Call.embedCall = false ∧
    (POST (.ok messages) embedRes fetch now).2.contains Call.fetchCall = false := by
  intro messages embedRes fetch now h
  have hmain : POST (.ok messages) embedRes fetch now =
      (.streamed "gpt-5" none, [Call.modelCall]) := by
    simp [POST, h]
  exact ⟨hmain, by rw [hmain]; rfl, by rw [hmain]; rfl⟩

/-- Witness for C6 at a message whose only part is not text-typed. -/
theorem claim_C6_witness :
    POST (.ok [{ parts := some [{ type := "image", text := "pic.png" }] }]) (.success [1])
        (.httpResponse true (some (some []))) "T" =
      (.streamed "gpt-5" none, [Call.modelCall]) :=
  (claim_C6 [{ parts := some [{ type := "image", text := "pic.png" }] }] (.success [1])
    (.httpResponse true (some (some []))) "T" (by decide)).1

/-- C7: every `RAGResponse` constructed by `queryRAGSystem` has
`has_results` true exactly when its document list is non-empty, and the
guard combining null-ness, the `has_results` flag and document-list
emptiness is the sole branch point of `buildSystemPrompt`: the output is
a single conditional on that guard between the two templates. -/
theorem claim_C7 :
    (∀ (emb : List Int) (q now : String) (fetch : FetchOutcome) (resp : RAGResponse),
      queryRAGSystem emb q now fetch = some resp →
      (resp.has_results = true ↔ resp.documents ≠ [])) ∧
    (∀ (ragResponse : Option RAGResponse) (userQuery : String),
      buildSystemPrompt ragResponse userQuery =
        if noContextCase ragResponse then buildNoAnswerPrompt
        else
          fifaPromptHeader ++
            buildContextFromSources
              ((ragResponse.getD
                { documents := [], has_results := false, query_id := none }).documents) ++
            fifaPromptTail userQuery) := by
  constructor
  · intro emb q now fetch resp h
    cases fetch with
    | networkError => simp [queryRAGSystem] at h
    | httpResponse ok mb =>
      cases ok with
      | false => simp [queryRAGSystem] at h
      | true =>
        cases mb with
        | none => simp [queryRAGSystem] at h
        | some maybeResults =>
          simp only [queryRAGSystem, Option.some.injEq] at h
          subst h
          simp [decide_eq_true_eq, List.length_pos]
  · intro ragResponse userQuery
    cases ragResponse <;> rfl

/-- Concrete raw search result used by witnesses. -/
def sampleRaw : RawResult :=
  { id := "d1", text := some "hello", metadataText := none, score := none }

/-- Empty fallback response used to state witnesses without binders. -/
def emptyResponse : RAGResponse :=
  { documents := [], has_results := false, query_id := none }

/-- Witness for C7 applying the invariant to a concrete constructed
response with one raw result. -/
theorem claim_C7_witness :
    (((queryRAGSystem [1] "q" "T"
        (.httpResponse true (some (some [sampleRaw])))).getD emptyResponse).has_results = true ↔
     ((queryRAGSystem [1] "q" "T"
        (.httpResponse true (some (some [sampleRaw])))).getD emptyResponse).documents ≠ []) :=
  claim_C7.1 [1] "q" "T" (.httpResponse true (some (some [sampleRaw]))) _ rfl

/-- A member of a joined list appears verbatim in the join. -/
theorem joinSep_contains (sep s : String) (ss : List String) (h : s ∈ ss) :
    ∃ a b, joinSep sep ss = a ++ s ++ b := by
  induction ss with
  | nil => cases h
  | cons x xs ih =>
    cases h with
    | head =>
      cases xs with
      | nil => exact ⟨"", "", by simp [joinSep]⟩
      | cons y ys =>
        exact ⟨"", sep ++ joinSep sep (y :: ys), by simp [joinSep, String.append_assoc]⟩
    | tail _ hmem =>
      cases xs with
      | nil => cases hmem
      | cons y ys =>
        obtain ⟨a, b, hab⟩ := ih hmem
        exact ⟨x ++ sep ++ a, b, by simp [joinSep, hab, String.append_assoc]⟩

/-- The block body of every document in the list appears verbatim in the
assembled context, after the numbered `[Source N]` prefix. -/
theorem buildContext_contains (docs : List RAGDocument) (d : RAGDocument) (h : d ∈ docs) :
    ∃ a b, buildContextFromSources docs = a ++ docBlockBody d ++ b := by
  obtain ⟨i, hi, hEq⟩ := List.getElem_of_mem h
  subst hEq
  have hienum : i < docs.enum.length := by simpa [List.enum_length] using hi
  have hmem2 : (i, docs[i]) ∈ docs.enum := by
    have hg := List.getElem_enum docs i hienum
    have hm : docs.enum[i] ∈ docs.enum := List.getElem_mem hienum
    rw [hg] at hm
    exact hm
  have hmem3 : docBlock (i, docs[i]) ∈ docs.enum.map docBlock :=
    List.mem_map_of_mem docBlock hmem2
  obtain ⟨a, b, hab⟩ := joinSep_contains "\n\n---\n\n" _ _ hmem3
  refine ⟨a ++ ("[Source " ++ toString (i + 1) ++ "] "), b, ?_⟩
  show joinSep "\n\n---\n\n" (docs.enum.map docBlock) = _
  rw [hab]
  simp [docBlock, docBlockBody, String.append_assoc]

/-- C4: with `has_results` set and a non-empty document list,
`buildSystemPrompt` is the fixed template around the serialized context —
the numbered blocks in supplied order joined by the fixed separator,
ending with the literal user query in quotes — and every document's
title, content, URL and fetched_at value appears verbatim in the output.
The construction is a pure function of its arguments, so identical input
yields byte-identical output. -/
theorem claim_C4 : ∀ (resp : RAGResponse) (userQuery : String),
    resp.has_results = true → resp.documents ≠ [] →
    (buildSystemPrompt (some resp) userQuery =
      fifaPromptHeader ++ joinSep "\n\n---\n\n" (resp.documents.enum.map docBlock) ++
        ("\n\nBased on this FIFA.com content, please answer the user's question: \"" ++
          userQuery ++ "\"")) ∧
    (∀ d ∈ resp.documents, ∃ a b, buildSystemPrompt (some resp) userQuery =
      a ++ (d.title ++ "\nContent: " ++ d.content ++ "\nURL: " ++ d.url ++
        "\nLast indexed: " ++ d.fetched_at) ++ b) := by
  intro resp userQuery h1 h2
  have hne : resp.documents.isEmpty = false := by
    cases hdocs : resp.documents with
    | nil => exact absurd hdocs h2
    | cons x xs => rfl
  have hmain : buildSystemPrompt (some resp) userQuery =
      fifaPromptHeader ++ buildContextFromSources resp.documents ++ fifaPromptTail userQuery := by
    simp [buildSystemPrompt, h1, hne]
  constructor
  · rw [hmain]; rfl
  · intro d hd
    obtain ⟨a, b, hab⟩ := buildContext_contains resp.documents d hd
    refine ⟨fifaPromptHeader ++ a, b ++ fifaPromptTail userQuery, ?_⟩
    rw [hmain, hab]
    simp [docBlockBody, String.append_assoc]

/-- Concrete document used by the C4 witness. -/
def sampleDoc : RAGDocument :=
  { url := "https://fifa.com/en/tournaments/mens/worldcup/canadamexicousa2026/tickets"
    title := "FIFA Document 1"
    content := "Ticket sales start soon"
    fetched_at := "2026-01-01T00:00:00Z"
    score := some 1 }

/-- Witness for C4 at a concrete one-document response. -/
theorem claim_C4_witness :
    buildSystemPrompt
        (some { documents := [sampleDoc], has_results := true, query_id := none })
        "When do tickets open?" =
      fifaPromptHeader ++ joinSep "\n\n---\n\n" ([sampleDoc].enum.map docBlock) ++
        ("\n\nBased on this FIFA.com content, please answer the user's question: \"" ++
          "When do tickets open?" ++ "\"") :=
  (claim_C4 { documents := [sampleDoc], has_results := true, query_id := none }
    "When do tickets open?" rfl (by decide)).1

/-- The classifier lands in one of the five venue URLs whenever a
venue-specific keyword matches, because the venue rules are checked
before every later rule. -/
theorem venue_mem (docId content : String) (h : venueKeywordHit (lowerStr content) = true) :
    convertToRealFIFAUrl docId content ∈ venueUrls := by
  simp only [venueKeywordHit, Bool.or_eq_true] at h
  simp only [convertToRealFIFAUrl]
  split_ifs with h1 h2 h3 h4 h5 h6 h7 h8 h9
  · simp [venueUrls]
  · simp [venueUrls]
  · simp [venueUrls]
  · simp [venueUrls]
  · simp [venueUrls]
  all_goals exact absurd h (by simp_all)

/-- C5: the classifier is the first-match evaluation of its rule table in
source order (venues first, then group keywords, then ticket keywords,
then the generic stadium catch-all, then the tournament default), and any
content matching a venue-specific keyword yields that venue's URL — never
the generic stadiums URL — even when the generic "stadium" keyword also
matches. -/
theorem claim_C5 :
    (∀ (docId content : String),
      convertToRealFIFAUrl docId content = firstMatch classifierRules (lowerStr content)) ∧
    (∀ (docId content : String), venueKeywordHit (lowerStr content) = true →
      convertToRealFIFAUrl docId content ∈ venueUrls ∧
      convertToRealFIFAUrl docId content ≠ urlStadiums) := by
  constructor
  · intro docId content
    rfl
  · intro docId content h
    have hmem := venue_mem docId content h
    refine ⟨hmem, ?_⟩
    intro hEq
    rw [hEq] at hmem
    revert hmem
    decide

/-- Witness for C5: content matching both the `sofi stadium` venue
keyword and the generic `stadium` keyword classifies to the venue URL. -/
theorem claim_C5_witness :
    venueKeywordHit (lowerStr "SoFi Stadium hosts the opening match") = true ∧
    (convertToRealFIFAUrl "doc-1" "SoFi Stadium hosts the opening match" ∈ venueUrls ∧
     convertToRealFIFAUrl "doc-1" "SoFi Stadium hosts the opening match" ≠ urlStadiums) :=
  ⟨by decide, claim_C5.2 "doc-1" "SoFi Stadium hosts the opening match" (by decide)⟩

/-- Every classifier result is in the fixed whitelist of nine URLs. -/
theorem convert_mem_whitelist (docId content : String) :
    convertToRealFIFAUrl docId content ∈ fifaUrlWhitelist := by
  simp only [convertToRealFIFAUrl]
  split_ifs <;> simp [fifaUrlWhitelist]

/-- C9: the URL classifier is total with values in a fixed finite set of
URLs, each of which begins with the tournament-section prefix of
fifa.com, and consequently every document the orchestrator builds carries
a whitelisted URL. -/
theorem claim_C9 :
    (∀ (docId content : String), convertToRealFIFAUrl docId content ∈ fifaUrlWhitelist) ∧
    fifaUrlWhitelist.all (fun u => strStartsWith u tournamentRoot) = true ∧
    (∀ (now : String) (results : List RawResult),
      (mkDocuments now results).all (fun d => fifaUrlWhitelist.contains d.url) = true) := by
  refine ⟨fun docId content => convert_mem_whitelist docId content, by decide, ?_⟩
  intro now results
  rw [List.all_eq_true]
  intro d hd
  simp only [mkDocuments, List.mem_map] at hd
  obtain ⟨p, hp, rfl⟩ := hd
  simp [List.contains, List.elem_iff, convert_mem_whitelist]

/-- Non-empty fallbacks propagate through the JavaScript `||` chain. -/
theorem jsOr_ne_empty (primary : Option String) (fallback : String) (hb : fallback ≠ "") :
    jsOr primary fallback ≠ "" := by
  cases primary with
  | none => simpa [jsOr] using hb
  | some s =>
    simp only [jsOr]
    split
    · exact hb
    · rename_i hne
      intro hs
      exact hne (by rw [hs]; rfl)

/-- C10: every document built by the orchestrator has the synthetic title
`FIFA Document N` with `N` its 1-based position in the result list,
`fetched_at` equal to the request handling time `now` (the raw result
supplies no timestamp), and a content field that is never empty thanks to
the `result.text || result.metadata?.text || 'No content available'`
fallback chain; `queryRAGSystem` wraps exactly these documents. -/
theorem claim_C10 : ∀ (now : String) (results : List RawResult) (emb : List Int) (q : String)
    (i : Nat) (h : i < (mkDocuments now results).length) (h2 : i < results.length),
    ((mkDocuments now results)[i]).title = "FIFA Document " ++ toString (i + 1) ∧
    ((mkDocuments now results)[i]).fetched_at = now ∧
    ((mkDocuments now results)[i]).content ≠ "" ∧
    ((mkDocuments now results)[i]).content =
      jsOr (results[i]).text (jsOr (results[i]).metadataText "No content available") ∧
    queryRAGSystem emb q now (.httpResponse true (some (some results))) =
      some { documents := mkDocuments now results
             has_results := decide ((mkDocuments now results).length > 0)
             query_id := none } := by
  intro now results emb q i h h2
  have hh : (mkDocuments now results)[i] =
      { url := convertToRealFIFAUrl (results[i]).id (jsOr (results[i]).text "")
        title := "FIFA Document " ++ toString (i + 1)
        content := jsOr (results[i]).text (jsOr (results[i]).metadataText "No content available")
        fetched_at := now
        score := (results[i]).score } := by
    simp only [mkDocuments, List.getElem_map, List.getElem_enum]
  refine ⟨by rw [hh], by rw [hh], ?_, by rw [hh], rfl⟩
  rw [hh]
  exact jsOr_ne_empty _ _ (jsOr_ne_empty _ _ (by decide))

/-- Default document used to state the C10 witness without binders. -/
def fallbackDoc : RAGDocument :=
  { url := "", title := "", content := "", fetched_at := "", score := none }

/-- Witness for C10 at a concrete single-result list. -/
theorem claim_C10_witness :
    ((mkDocuments "T" [sampleRaw]).getD 0 fallbackDoc).title = "FIFA Document 1" ∧
    ((mkDocuments "T" [sampleRaw]).getD 0 fallbackDoc).fetched_at = "T" ∧
    ((mkDocuments "T" [sampleRaw]).getD 0 fallbackDoc).content ≠ "" := by
  obtain ⟨h1, h2, h3, _, _⟩ := claim_C10 "T" [sampleRaw] [1] "q" 0 (by decide) (by decide)
  exact ⟨h1, h2, h3⟩
